import Mathlib

/-!
Shallow embedding of the GPU resource/synchronization core of the
screen-13 repository: the texture synchronization-state tracking and
view cache of src/gpu/texture.rs, and the compute-pipeline builder of
src/driver/compute.rs.  Definitions mirror the Rust source; theorems
settle the specification claims about them.
-/

namespace Screen13

/-- Image memory layouts (gfx_hal::image::Layout, the variants this
code touches). -/
inductive Layout where
  | Undefined
  | Preinitialized
  | General
  | ColorAttachmentOptimal
  | DepthStencilAttachmentOptimal
  | ShaderReadOnlyOptimal
  | TransferSrcOptimal
  | TransferDstOptimal
  | Present
  deriving DecidableEq, Repr

/-- Access masks are bitflags (gfx_hal::image::Access); modelled as a
natural-number bitmask. -/
abbrev Access := Nat

/-- Access::empty(), the empty bitmask. -/
def Access.empty : Access := 0

/-- Access::HOST_WRITE (VK_ACCESS_HOST_WRITE_BIT = 0x4000). -/
def Access.HOST_WRITE : Access := 0x4000

/-- Pipeline stages are bitflags (gfx_hal::pso::PipelineStage). -/
abbrev PipelineStage := Nat

/-- PipelineStage::TOP_OF_PIPE (VK_PIPELINE_STAGE_TOP_OF_PIPE_BIT = 0x1). -/
def PipelineStage.TOP_OF_PIPE : PipelineStage := 0x1

/-- Pixel formats (gfx_hal::format::Format, a representative subset
containing the color and depth formats this code distinguishes). -/
inductive Format where
  | Rgba8Unorm
  | Bgra8Unorm
  | R8Unorm
  | D16Unorm
  | D24UnormS8Uint
  | D32Sfloat
  | D32SfloatS8Uint
  deriving DecidableEq, Repr

/-- Format::is_depth(): whether the surface aspects of the format include
the depth aspect. -/
def Format.is_depth : Format → Bool
  | .D16Unorm => true
  | .D24UnormS8Uint => true
  | .D32Sfloat => true
  | .D32SfloatS8Uint => true
  | _ => false

/-- Image aspect flags used by the barrier range
(gfx_hal::format::Aspects as used in set_layout). -/
inductive Aspects where
  | COLOR
  | DEPTH
  deriving DecidableEq, Repr

/-- Subresource range of a barrier or view
(gfx_hal::image::SubresourceRange): aspects plus half-open mip-level
and array-layer ranges, each a (start, end) pair. -/
structure SubresourceRange where
  aspects : Aspects
  levels : Nat × Nat
  layers : Nat × Nat
  deriving DecidableEq, Repr

/-- Image-view kinds (gfx_hal::image::ViewKind). -/
inductive ViewKind where
  | D1
  | D1Array
  | D2
  | D2Array
  | D3
  | Cube
  | CubeArray
  deriving DecidableEq, Repr

/-- Swizzle components (gfx_hal::format::Component). -/
inductive Component where
  | Zero
  | One
  | R
  | G
  | B
  | A
  deriving DecidableEq, Repr

/-- Channel swizzle (gfx_hal::format::Swizzle). -/
structure Swizzle where
  r : Component
  g : Component
  b : Component
  a : Component
  deriving DecidableEq, Repr

/-- Swizzle::default() = Swizzle::NO, the identity mapping. -/
def Swizzle.default : Swizzle := ⟨.R, .G, .B, .A⟩

/-- Texture dimensions (crate::math::Extent). -/
abbrev Extent := Nat × Nat

/-- The mutable synchronization-state record of a texture
(struct State in src/gpu/texture.rs). -/
structure State where
  access_mask : Access
  layout : Layout
  pipeline_stage : PipelineStage
  deriving DecidableEq, Repr

/-- Cache key for image views (struct ImageViewKey in
src/gpu/texture.rs). -/
structure ImageViewKey where
  view_kind : ViewKind
  format : Format
  swizzle : Swizzle
  range : SubresourceRange
  deriving DecidableEq, Repr

/-- The memoized view map of one texture.  Entries associate a key with
the device-level view object, identified here by the ordinal of its
creation; `created` counts how many device-level views have been
created for this texture (it is also the next fresh identifier). -/
structure ViewCache where
  entries : List (ImageViewKey × Nat)
  created : Nat
  deriving DecidableEq, Repr

/-- HashMap lookup over the association list of cached views. -/
def ViewCache.findEntry : List (ImageViewKey × Nat) → ImageViewKey → Option Nat
  | [], _ => none
  | (k0, v) :: rest, k => if k0 = k then some v else ViewCache.findEntry rest k

/-- HashMap::contains_key / indexing for the view map of a texture. -/
def ViewCache.find (c : ViewCache) (k : ImageViewKey) : Option Nat :=
  ViewCache.findEntry c.entries k

/-- A texture: an image resource with its dimensions, format, the
attributes its image was created with (array layers, sample count, mip
levels), the tracked synchronization state, and the memoized view map
(struct Texture in src/gpu/texture.rs; layers/samples/mips live on the
owned image created by Texture::new). -/
structure Texture where
  dims : Extent
  format : Format
  layers : Nat
  samples : Nat
  mips : Nat
  state : State
  views : ViewCache
  deriving DecidableEq, Repr

/-- One recorded image barrier (the Barrier::Image entry passed to
cmd_buf.pipeline_barrier in Texture::set_layout): source and
destination stages, source and destination (access, layout) states,
and the subresource range. -/
structure BarrierRecord where
  src_stage : PipelineStage
  dst_stage : PipelineStage
  src_access : Access
  src_layout : Layout
  dst_access : Access
  dst_layout : Layout
  range : SubresourceRange
  deriving DecidableEq, Repr

/-- Texture::new (src/gpu/texture.rs, lines 196-251).  The format is
the one resolved from the best_fmt query of the device, taken here as
given; the initial access mask is HOST_WRITE exactly when the
requested layout is Preinitialized, and the initial stage is
TOP_OF_PIPE. -/
def Texture.new (dims : Extent) (format : Format) (layout : Layout)
    (layers : Nat) (samples : Nat) (mips : Nat) : Texture :=
  let access_mask :=
    if layout = Layout.Preinitialized then Access.HOST_WRITE else Access.empty
  { dims := dims
    format := format
    layers := layers
    samples := samples
    mips := mips
    state :=
      { access_mask := access_mask
        layout := layout
        pipeline_stage := PipelineStage.TOP_OF_PIPE }
    views := { entries := [], created := 0 } }

/-- Texture::from_swapchain (src/gpu/texture.rs, lines 60-78): a
swapchain image starts with empty access, Undefined layout and
TOP_OF_PIPE stage.  Swapchain images have one mip level and layer. -/
def Texture.from_swapchain (dims : Extent) (format : Format) : Texture :=
  { dims := dims
    format := format
    layers := 1
    samples := 1
    mips := 1
    state :=
      { access_mask := Access.empty
        layout := Layout.Undefined
        pipeline_stage := PipelineStage.TOP_OF_PIPE }
    views := { entries := [], created := 0 } }

/-- Texture::acquire_swapchain (src/gpu/texture.rs, lines 82-93):
force-reset the tracked state to empty access, Undefined layout,
TOP_OF_PIPE stage. -/
def Texture.acquire_swapchain (t : Texture) : Texture :=
  { t with
    state :=
      { access_mask := Access.empty
        layout := Layout.Undefined
        pipeline_stage := PipelineStage.TOP_OF_PIPE } }

/-- Texture::set_layout (src/gpu/texture.rs, lines 163-193): record
one image barrier into the command buffer from the currently tracked
state to the requested (layout, stage, access) triple, with aspect
DEPTH when the format is a depth format and COLOR otherwise and the
hardcoded level/layer ranges 0..1, then overwrite the tracked state
with the requested triple.  The command buffer is modelled as the list
of barriers recorded so far. -/
def Texture.set_layout (t : Texture) (cmd_buf : List BarrierRecord)
    (layout : Layout) (pipeline_stage : PipelineStage) (access_mask : Access) :
    Texture × List BarrierRecord :=
  let barrier : BarrierRecord :=
    { src_stage := t.state.pipeline_stage
      dst_stage := pipeline_stage
      src_access := t.state.access_mask
      src_layout := t.state.layout
      dst_access := access_mask
      dst_layout := layout
      range :=
        { aspects := if t.format.is_depth then Aspects.DEPTH else Aspects.COLOR
          levels := (0, 1)
          layers := (0, 1) } }
  ({ t with
     state :=
       { access_mask := access_mask
         layout := layout
         pipeline_stage := pipeline_stage } },
   cmd_buf ++ [barrier])

/-- A requested transition triple in the parameter order of
set_layout: (layout, pipeline stage, access mask). -/
abbrev TransitionReq := Layout × PipelineStage × Access

/-- A sequence of set_layout calls on one texture and command
buffer. -/
def Texture.run_transitions :
    Texture × List BarrierRecord → List TransitionReq → Texture × List BarrierRecord
  | tc, [] => tc
  | (t, cmd), r :: rest =>
      Texture.run_transitions (t.set_layout cmd r.1 r.2.1 r.2.2) rest

/-- Texture::as_view (src/gpu/texture.rs, lines 117-150): build the
key, create and insert a device-level view if the key is absent, then
return the cached view for the key.  The returned value identifies the
underlying view object. -/
def Texture.as_view (t : Texture) (view_kind : ViewKind) (format : Format)
    (swizzle : Swizzle) (range : SubresourceRange) : Nat × Texture :=
  let key : ImageViewKey :=
    { view_kind := view_kind, format := format, swizzle := swizzle, range := range }
  match t.views.find key with
  | some v => (v, t)
  | none =>
      let v := t.views.created
      (v, { t with
            views :=
              { entries := (key, v) :: t.views.entries
                created := t.views.created + 1 } })

/-- Texture::as_default_2d_view_format (src/gpu/texture.rs, lines
104-115): a D2 view with identity swizzle and the color aspect over
levels 0..1 and layers 0..1. -/
def Texture.as_default_2d_view_format (t : Texture) (format : Format) :
    Nat × Texture :=
  t.as_view ViewKind.D2 format Swizzle.default
    { aspects := Aspects.COLOR, levels := (0, 1), layers := (0, 1) }

/-- Texture::as_default_2d_view: the default 2D view with the
own format of the texture. -/
def Texture.as_default_2d_view (t : Texture) : Nat × Texture :=
  t.as_default_2d_view_format t.format

/-- Repeat as_view n times with the same key, keeping the final
texture. -/
def Texture.as_view_iter (t : Texture) (view_kind : ViewKind) (format : Format)
    (swizzle : Swizzle) (range : SubresourceRange) : Nat → Texture
  | 0 => t
  | n + 1 =>
      Texture.as_view_iter (t.as_view view_kind format swizzle range).2
        view_kind format swizzle range n

/-- Driver errors (screen-13 DriverError enum). -/
inductive DriverError where
  | InvalidData
  | OutOfMemory
  | Unsupported
  deriving DecidableEq, Repr

/-- Information of one reflected descriptor: its descriptor kind
(opaque here) and its declared array count (binding_count /
set_binding_count on DescriptorInfo). -/
structure DescriptorInfo where
  kind : Nat
  binding_count : Nat
  deriving DecidableEq, Repr

/-- DescriptorInfo::set_binding_count. -/
def DescriptorInfo.set_binding_count (d : DescriptorInfo) (n : Nat) :
    DescriptorInfo :=
  { d with binding_count := n }

/-- The descriptor-binding map reflected from a shader
(DescriptorBindingMap): binding slot (set, binding) to descriptor
information. -/
abbrev DescriptorBindingMap := List ((Nat × Nat) × DescriptorInfo)

/-- Pipeline configuration (struct ComputePipelineInfo in
src/driver/compute.rs). -/
structure ComputePipelineInfo where
  bindless_descriptor_count : Nat
  name : Option String
  deriving DecidableEq, Repr

/-- The derived Default implementation of ComputePipelineInfo
(#[derive(Default)]): every field takes its Rust default, so
bindless_descriptor_count = 0 (u32 default) and name = None. -/
def ComputePipelineInfo.default : ComputePipelineInfo :=
  { bindless_descriptor_count := 0, name := none }

/-- The derive_builder-generated builder for ComputePipelineInfo: each
field is optionally set. -/
structure ComputePipelineInfoBuilder where
  bindless_descriptor_count : Option Nat := none
  name : Option (Option String) := none
  deriving DecidableEq, Repr

/-- ComputePipelineInfoBuilder::build: unset fields take the builder
defaults, 8192 for bindless_descriptor_count (the
builder(default = "8192") attribute, src/driver/compute.rs line 222)
and None for name. -/
def ComputePipelineInfoBuilder.build (b : ComputePipelineInfoBuilder) :
    ComputePipelineInfo :=
  { bindless_descriptor_count := b.bindless_descriptor_count.getD 8192
    name := b.name.getD none }

/-- The bindless rewriting loop of ComputePipeline::create
(src/driver/compute.rs, lines 81-85): every binding whose declared
count is zero is set to the configured count; the rest keep theirs. -/
def rewriteBindless (count : Nat) (m : DescriptorBindingMap) :
    DescriptorBindingMap :=
  m.map fun e =>
    if e.2.binding_count = 0 then (e.1, e.2.set_binding_count count) else e

/-- The device-call events ComputePipeline::create and Drop can
perform, logged in order.  A create event is logged only when the
device call succeeds (a failed call produces no object). -/
inductive Event where
  | create_shader_module
  | destroy_shader_module
  | create_pipeline_layout
  | destroy_pipeline_layout
  | create_pipeline
  | destroy_pipeline
  deriving DecidableEq, Repr

/-- The outcomes of the fallible device/driver calls inside one
ComputePipeline::create invocation: whether
PipelineDescriptorInfo::create succeeds (with its error when not),
and whether each vk object creation succeeds. -/
structure DeviceBehavior where
  desc_info : Except DriverError Unit
  shader_module_ok : Bool
  pipeline_layout_ok : Bool
  compute_pipeline_ok : Bool
  deriving Repr

/-- The pipeline value returned on success (the fields of
ComputePipeline relevant here: the rewritten descriptor bindings and
the configuration). -/
structure CreatedPipeline where
  descriptor_bindings : DescriptorBindingMap
  info : ComputePipelineInfo
  deriving DecidableEq, Repr

/-- ComputePipeline::create (src/driver/compute.rs, lines 66-165),
with device-call outcomes supplied by `dev` and the device calls
logged in order.  Mirrors the source control flow: rewrite bindless
bindings, build the descriptor info (propagating its error), create
the shader module, the pipeline layout and the pipeline — each
creation failure maps to DriverError::Unsupported and returns at once
via the question-mark operator — and destroy the shader module only
after pipeline creation succeeded. -/
def ComputePipeline.create (dev : DeviceBehavior) (info : ComputePipelineInfo)
    (bindings : DescriptorBindingMap) :
    Except DriverError CreatedPipeline × List Event :=
  let descriptor_bindings := rewriteBindless info.bindless_descriptor_count bindings
  match dev.desc_info with
  | .error e => (.error e, [])
  | .ok _ =>
    if dev.shader_module_ok then
      if dev.pipeline_layout_ok then
        if dev.compute_pipeline_ok then
          (.ok { descriptor_bindings := descriptor_bindings, info := info },
           [Event.create_shader_module, Event.create_pipeline_layout,
            Event.create_pipeline, Event.destroy_shader_module])
        else
          (.error DriverError.Unsupported,
           [Event.create_shader_module, Event.create_pipeline_layout])
      else
        (.error DriverError.Unsupported, [Event.create_shader_module])
    else
      (.error DriverError.Unsupported, [])

/-- Drop for ComputePipeline (src/driver/compute.rs, lines 176-187):
if a panic is unwinding, return without any device call; otherwise
destroy the pipeline and then the pipeline layout. -/
def ComputePipeline.drop (panicking : Bool) : List Event :=
  if panicking then []
  else [Event.destroy_pipeline, Event.destroy_pipeline_layout]

/-! Helper lemmas shared by the claim theorems. -/

/-- The state written by one set_layout call is the requested triple. -/
theorem set_layout_state (t : Texture) (cmd : List BarrierRecord)
    (l : Layout) (s : PipelineStage) (a : Access) :
    ((t.set_layout cmd l s a).1).state =
      { access_mask := a, layout := l, pipeline_stage := s } := rfl

/-- Folding a nonempty request sequence through set_layout leaves the
state of the last request. -/
theorem run_transitions_getLast (reqs : List TransitionReq) (r : TransitionReq)
    (t : Texture) (cmd : List BarrierRecord) (h : reqs.getLast? = some r) :
    ((Texture.run_transitions (t, cmd) reqs).1).state =
      { access_mask := r.2.2, layout := r.1, pipeline_stage := r.2.1 } := by
  induction reqs generalizing t cmd with
  | nil => simp at h
  | cons r0 rest ih =>
    cases rest with
    | nil =>
      simp [List.getLast?] at h
      subst h
      simp [Texture.run_transitions, set_layout_state]
    | cons r1 rest1 =>
      rw [List.getLast?_cons_cons] at h
      simpa [Texture.run_transitions] using ih _ _ h

/-- A view-cache hit returns the cached view and leaves the texture
unchanged. -/
theorem as_view_hit (t : Texture) (vk : ViewKind) (fm : Format) (sw : Swizzle)
    (rg : SubresourceRange) (v : Nat)
    (h : t.views.find ⟨vk, fm, sw, rg⟩ = some v) :
    t.as_view vk fm sw rg = (v, t) := by
  simp [Texture.as_view, h]

/-- After any as_view call the key maps to the returned view. -/
theorem as_view_mem (t : Texture) (vk : ViewKind) (fm : Format) (sw : Swizzle)
    (rg : SubresourceRange) :
    (((t.as_view vk fm sw rg).2).views).find ⟨vk, fm, sw, rg⟩ =
      some (t.as_view vk fm sw rg).1 := by
  cases h : t.views.find ⟨vk, fm, sw, rg⟩ with
  | some v => simp [Texture.as_view, h]
  | none =>
    simp only [Texture.as_view, h]
    simp [ViewCache.find, ViewCache.findEntry]

/-- A view-cache miss creates exactly one device-level view. -/
theorem as_view_miss_created (t : Texture) (vk : ViewKind) (fm : Format)
    (sw : Swizzle) (rg : SubresourceRange)
    (h : t.views.find ⟨vk, fm, sw, rg⟩ = none) :
    (((t.as_view vk fm sw rg).2).views).created = t.views.created + 1 := by
  simp [Texture.as_view, h]

/-- Once the key is cached, iterating as_view never changes the
texture. -/
theorem as_view_iter_stable (n : Nat) (t : Texture) (vk : ViewKind)
    (fm : Format) (sw : Swizzle) (rg : SubresourceRange) (v : Nat)
    (h : t.views.find ⟨vk, fm, sw, rg⟩ = some v) :
    t.as_view_iter vk fm sw rg n = t := by
  induction n with
  | zero => rfl
  | succ m ih =>
    simp [Texture.as_view_iter, as_view_hit t vk fm sw rg v h, ih]

/-! The claim theorems. -/

/-- C1: after every set_layout call the tracked state equals exactly
the requested (layout, stage, access) triple, irrespective of the
prior state; hence after any nonempty sequence of transition calls the
tracked state equals the triple of the last request. -/
theorem set_layout_tracked_state :
    (∀ (t : Texture) (cmd : List BarrierRecord) (l : Layout)
       (s : PipelineStage) (a : Access),
      ((t.set_layout cmd l s a).1).state =
        { access_mask := a, layout := l, pipeline_stage := s }) ∧
    (∀ (t : Texture) (cmd : List BarrierRecord) (reqs : List TransitionReq)
       (r : TransitionReq), reqs.getLast? = some r →
      ((Texture.run_transitions (t, cmd) reqs).1).state =
        { access_mask := r.2.2, layout := r.1, pipeline_stage := r.2.1 }) :=
  ⟨fun t cmd l s a => set_layout_state t cmd l s a,
   fun t cmd reqs r h => run_transitions_getLast reqs r t cmd h⟩

/-- Witness for C1 at a concrete texture and two-element transition
sequence: the final tracked state is that of the second request. -/
theorem set_layout_tracked_state_witness :
    ((Texture.run_transitions (Texture.from_swapchain (4, 4) Format.Rgba8Unorm, [])
        [(Layout.ColorAttachmentOptimal, 1024, 256),
         (Layout.ShaderReadOnlyOptimal, 2048, 32)]).1).state =
      { access_mask := 32, layout := Layout.ShaderReadOnlyOptimal,
        pipeline_stage := 2048 } :=
  set_layout_tracked_state.2 (Texture.from_swapchain (4, 4) Format.Rgba8Unorm) []
    [(Layout.ColorAttachmentOptimal, 1024, 256),
     (Layout.ShaderReadOnlyOptimal, 2048, 32)]
    (Layout.ShaderReadOnlyOptimal, 2048, 32) rfl

/-- C2 counterexample: on a texture with two mip levels, the barrier
recorded by set_layout covers mip levels 0..1, not the full mip range
0..2 of the texture, so the recorded barrier does not cover the full
mip/layer range. -/
theorem set_layout_full_range_counterexample :
    ((((Texture.new (4, 4) Format.Rgba8Unorm Layout.Undefined 1 1 2).set_layout
        [] Layout.TransferDstOptimal 4096 4096).2).map
      fun b => b.range.levels) = [(0, 1)] ∧
    (Texture.new (4, 4) Format.Rgba8Unorm Layout.Undefined 1 1 2).mips = 2 ∧
    ((0 : Nat), (1 : Nat)) ≠
      (0, (Texture.new (4, 4) Format.Rgba8Unorm Layout.Undefined 1 1 2).mips) := by
  refine ⟨rfl, rfl, ?_⟩
  decide

/-- C2 amended: every set_layout call appends exactly one barrier to
the command recording context, whose source stage and (access, layout)
states are the currently tracked ones, whose destination states are
the requested triple, whose aspect is DEPTH for depth formats and
COLOR otherwise, and whose mip-level and array-layer ranges are the
hardcoded 0..1 (the first mip level and layer only). -/
theorem set_layout_records_one_barrier (t : Texture)
    (cmd : List BarrierRecord) (l : Layout) (s : PipelineStage) (a : Access) :
    (t.set_layout cmd l s a).2 =
      cmd ++
        [{ src_stage := t.state.pipeline_stage
           dst_stage := s
           src_access := t.state.access_mask
           src_layout := t.state.layout
           dst_access := a
           dst_layout := l
           range :=
             { aspects :=
                 if t.format.is_depth then Aspects.DEPTH else Aspects.COLOR
               levels := (0, 1)
               layers := (0, 1) } }] := rfl

/-- C3: the bindless rewriting in ComputePipeline::create uses the
configured bindless_descriptor_count for zero-count bindings and keeps
nonzero counts — but the derived Default of ComputePipelineInfo sets
bindless_descriptor_count to 0, contradicting the in-code
documentation that the default is 8192 (only the builder path defaults
to 8192): creating with ComputePipelineInfo::default() rewrites a
zero-count binding to 0, not 8192. -/
theorem bindless_default_bug :
    ComputePipelineInfo.default.bindless_descriptor_count = 0 ∧
    (ComputePipelineInfoBuilder.build {}).bindless_descriptor_count = 8192 ∧
    (ComputePipeline.create
        { desc_info := .ok (), shader_module_ok := true,
          pipeline_layout_ok := true, compute_pipeline_ok := true }
        ComputePipelineInfo.default
        [((0, 0), { kind := 7, binding_count := 0 })]).1 =
      .ok { descriptor_bindings := [((0, 0), { kind := 7, binding_count := 0 })],
            info := ComputePipelineInfo.default } ∧
    (ComputePipeline.create
        { desc_info := .ok (), shader_module_ok := true,
          pipeline_layout_ok := true, compute_pipeline_ok := true }
        (ComputePipelineInfoBuilder.build {})
        [((0, 0), { kind := 7, binding_count := 0 }),
         ((0, 1), { kind := 2, binding_count := 3 })]).1 =
      .ok { descriptor_bindings :=
              [((0, 0), { kind := 7, binding_count := 8192 }),
               ((0, 1), { kind := 2, binding_count := 3 })],
            info := ComputePipelineInfoBuilder.build {} } :=
  ⟨rfl, rfl, rfl, rfl⟩

/-- C4: when pipeline-layout creation fails, create returns the error
without destroying the shader module it created; when pipeline
creation fails it also leaves the pipeline layout undestroyed — the
transient module (and layout) leak on these failure paths. -/
theorem create_leaks_on_failure :
    (ComputePipeline.create
        { desc_info := .ok (), shader_module_ok := true,
          pipeline_layout_ok := false, compute_pipeline_ok := true }
        (ComputePipelineInfoBuilder.build {}) []).1 =
      .error DriverError.Unsupported ∧
    (ComputePipeline.create
        { desc_info := .ok (), shader_module_ok := true,
          pipeline_layout_ok := false, compute_pipeline_ok := true }
        (ComputePipelineInfoBuilder.build {}) []).2 =
      [Event.create_shader_module] ∧
    (ComputePipeline.create
        { desc_info := .ok (), shader_module_ok := true,
          pipeline_layout_ok := true, compute_pipeline_ok := false }
        (ComputePipelineInfoBuilder.build {}) []).2 =
      [Event.create_shader_module, Event.create_pipeline_layout] := by
  refine ⟨rfl, rfl, rfl⟩

/-- C5: two as_view calls with the same key arguments return the same
underlying view object and the second call leaves the texture (hence
the device-level view set) unchanged; starting from a texture whose
cache does not hold the key, any positive number of repeated calls
with that key creates exactly one device-level view. -/
theorem as_view_memoized :
    (∀ (t : Texture) (vk : ViewKind) (fm : Format) (sw : Swizzle)
       (rg : SubresourceRange),
      (((t.as_view vk fm sw rg).2).as_view vk fm sw rg).1 =
        (t.as_view vk fm sw rg).1 ∧
      (((t.as_view vk fm sw rg).2).as_view vk fm sw rg).2 =
        (t.as_view vk fm sw rg).2) ∧
    (∀ (t : Texture) (vk : ViewKind) (fm : Format) (sw : Swizzle)
       (rg : SubresourceRange) (n : Nat),
      t.views.find ⟨vk, fm, sw, rg⟩ = none →
      ((t.as_view_iter vk fm sw rg (n + 1)).views).created =
        t.views.created + 1) := by
  constructor
  · intro t vk fm sw rg
    have h := as_view_hit (t.as_view vk fm sw rg).2 vk fm sw rg
      (t.as_view vk fm sw rg).1 (as_view_mem t vk fm sw rg)
    exact ⟨congrArg Prod.fst h, congrArg Prod.snd h⟩
  · intro t vk fm sw rg n h
    have hstable := as_view_iter_stable n (t.as_view vk fm sw rg).2 vk fm sw rg
      (t.as_view vk fm sw rg).1 (as_view_mem t vk fm sw rg)
    have hiter :
        t.as_view_iter vk fm sw rg (n + 1) = (t.as_view vk fm sw rg).2 := by
      simp [Texture.as_view_iter, hstable]
    rw [hiter, as_view_miss_created t vk fm sw rg h]

/-- Witness for C5 at a fresh swapchain texture and the default 2D
view key: the second call returns the same view and three repeated
calls create exactly one device-level view. -/
theorem as_view_memoized_witness :
    ((((Texture.from_swapchain (8, 8) Format.Bgra8Unorm).as_view ViewKind.D2
          Format.Bgra8Unorm Swizzle.default
          { aspects := Aspects.COLOR, levels := (0, 1), layers := (0, 1) }).2).as_view
        ViewKind.D2 Format.Bgra8Unorm Swizzle.default
        { aspects := Aspects.COLOR, levels := (0, 1), layers := (0, 1) }).1 =
      ((Texture.from_swapchain (8, 8) Format.Bgra8Unorm).as_view ViewKind.D2
          Format.Bgra8Unorm Swizzle.default
          { aspects := Aspects.COLOR, levels := (0, 1), layers := (0, 1) }).1 ∧
    (((Texture.from_swapchain (8, 8) Format.Bgra8Unorm).as_view_iter ViewKind.D2
          Format.Bgra8Unorm Swizzle.default
          { aspects := Aspects.COLOR, levels := (0, 1), layers := (0, 1) }
          3).views).created =
      (Texture.from_swapchain (8, 8) Format.Bgra8Unorm).views.created + 1 :=
  ⟨(as_view_memoized.1 (Texture.from_swapchain (8, 8) Format.Bgra8Unorm)
      ViewKind.D2 Format.Bgra8Unorm Swizzle.default
      { aspects := Aspects.COLOR, levels := (0, 1), layers := (0, 1) }).1,
   as_view_memoized.2 (Texture.from_swapchain (8, 8) Format.Bgra8Unorm)
      ViewKind.D2 Format.Bgra8Unorm Swizzle.default
      { aspects := Aspects.COLOR, levels := (0, 1), layers := (0, 1) } 2 rfl⟩

/-- C6: acquire_swapchain sets the tracked state to empty access,
Undefined layout and TOP_OF_PIPE stage, regardless of the state
beforehand. -/
theorem acquire_swapchain_resets (t : Texture) :
    (t.acquire_swapchain).state =
      { access_mask := Access.empty, layout := Layout.Undefined,
        pipeline_stage := PipelineStage.TOP_OF_PIPE } := rfl

/-- C7: whenever the shader-module, pipeline-layout or pipeline
creation fails inside ComputePipeline::create, the call aborts with
DriverError::Unsupported. -/
theorem create_failure_unsupported (dev : DeviceBehavior)
    (info : ComputePipelineInfo) (bindings : DescriptorBindingMap)
    (hd : dev.desc_info = .ok ())
    (hf : dev.shader_module_ok = false ∨ dev.pipeline_layout_ok = false ∨
          dev.compute_pipeline_ok = false) :
    (ComputePipeline.create dev info bindings).1 =
      .error DriverError.Unsupported := by
  rcases dev with ⟨d, sm, pl, cp⟩
  simp only at hd hf
  subst hd
  cases sm <;> cases pl <;> cases cp <;>
    simp_all [ComputePipeline.create]

/-- Witness for C7: a device rejecting the shader module makes create
return Unsupported. -/
theorem create_failure_unsupported_witness :
    (ComputePipeline.create
        { desc_info := .ok (), shader_module_ok := false,
          pipeline_layout_ok := true, compute_pipeline_ok := true }
        ComputePipelineInfo.default []).1 =
      .error DriverError.Unsupported :=
  create_failure_unsupported
    { desc_info := .ok (), shader_module_ok := false,
      pipeline_layout_ok := true, compute_pipeline_ok := true }
    ComputePipelineInfo.default [] rfl (Or.inl rfl)

/-- C8 counterexample: a non-panicking drop does not release the
layout before the pipeline — the recorded destruction order is not
layout first. -/
theorem drop_order_counterexample :
    ComputePipeline.drop false ≠
      [Event.destroy_pipeline_layout, Event.destroy_pipeline] := by
  decide

/-- C8 amended: when the last owner drops a ComputePipeline outside a
panic, its destructor releases the pipeline object first and then the
layout object. -/
theorem drop_order :
    ComputePipeline.drop false =
      [Event.destroy_pipeline, Event.destroy_pipeline_layout] := rfl

/-- C9: a texture built by Texture::new starts at stage TOP_OF_PIPE,
with access HOST_WRITE exactly when the requested initial layout is
Preinitialized (empty otherwise), and with the requested layout as its
tracked layout. -/
theorem texture_new_initial_state (dims : Extent) (fm : Format)
    (layout : Layout) (layers samples mips : Nat) :
    (Texture.new dims fm layout layers samples mips).state =
      { access_mask :=
          if layout = Layout.Preinitialized then Access.HOST_WRITE
          else Access.empty
        layout := layout
        pipeline_stage := PipelineStage.TOP_OF_PIPE } := rfl

/-- C10: a ComputePipeline dropped while a panic is unwinding performs
no device call at all — neither the pipeline nor the layout is
destroyed. -/
theorem drop_while_panicking_no_device_calls :
    ComputePipeline.drop true = [] := rfl

end Screen13
